import Mathlib

/-!
Verification of the containerd default seccomp profile generator
(`contrib/seccomp/seccomp_default.go`) against its specification.

The Go code is embedded shallowly: the OCI runtime-spec types
(`LinuxSeccomp`, `LinuxSyscall`, `LinuxSeccompArg`, actions, operators,
architectures) become Lean structures and inductives; `runtime.GOARCH`
becomes an explicit `String` parameter; the fallible kernel-version probe
`kernelversion.GreaterEqualThan` becomes an injected oracle returning a
`Bool × Option String` pair mirroring Go's `(bool, error)`; Go nil-pointer
dereference (on `sp.Process.Capabilities`) is modeled by `Option`:
`DefaultProfile` returns `none` exactly when the Go code would panic.
-/

namespace Seccomp

/-- OCI seccomp architecture identifiers (runtimespec.Arch). -/
inductive Arch
  | archX86
  | archX86_64
  | archX32
  | archARM
  | archAARCH64
  | archMIPS
  | archMIPS64
  | archMIPS64N32
  | archMIPSEL
  | archMIPSEL64
  | archMIPSEL64N32
  | archS390
  | archS390X
  | archRISCV64
  deriving DecidableEq, Repr

/-- OCI seccomp actions (only the two used by this profile). -/
inductive SeccompAction
  | actAllow
  | actErrno
  deriving DecidableEq, Repr

/-- OCI seccomp argument comparison operators. -/
inductive SeccompOp
  | opEqualTo
  | opNotEqual
  | opMaskedEqual
  | opLessThan
  | opLessEqual
  | opGreaterThan
  | opGreaterEqual
  deriving DecidableEq, Repr

/-- runtimespec.LinuxSeccompArg: one argument condition.  Values are u64 in
Go; all literals used by the profile are far below 2^64 so `Nat` is exact. -/
structure SeccompArg where
  index : Nat
  value : Nat
  valueTwo : Nat
  op : SeccompOp
  deriving DecidableEq, Repr

/-- runtimespec.LinuxSyscall: one rule of the policy. -/
structure Syscall where
  names : List String
  action : SeccompAction
  errnoRet : Option Nat
  args : List SeccompArg
  deriving DecidableEq, Repr

/-- runtimespec.LinuxSeccomp: the policy document. -/
structure LinuxSeccomp where
  defaultAction : SeccompAction
  architectures : List Arch
  syscalls : List Syscall
  deriving DecidableEq, Repr

/-- runtimespec.LinuxCapabilities, restricted to the Bounding field, the
only one `DefaultProfile` reads. -/
structure LinuxCapabilities where
  bounding : List String
  deriving DecidableEq, Repr

/-- runtimespec.Process, restricted to the Capabilities pointer
(`none` models a Go nil pointer). -/
structure Process where
  capabilities : Option LinuxCapabilities
  deriving DecidableEq, Repr

/-- runtimespec.Spec, restricted to the Process pointer
(`none` models a Go nil pointer). -/
structure Spec where
  process : Option Process
  deriving DecidableEq, Repr

/-- kernelversion.KernelVersion: the `{Kernel, Major}` requirement passed
to the version probe. -/
structure KernelVersion where
  kernel : Nat
  major : Nat
  deriving DecidableEq, Repr

/-- The kernel-version oracle: mirrors Go
`kernelversion.GreaterEqualThan : KernelVersion -> (bool, error)`;
the second component `some msg` models a non-nil error. -/
def KernelOracle : Type := KernelVersion → Bool × Option String

/-- unix.ENOSYS on Linux. -/
def enosys : Nat := 38

/-- unix.AF_VSOCK. -/
def AF_VSOCK : Nat := 40

def CLONE_NEWNS : Nat := 0x00020000
def CLONE_NEWCGROUP : Nat := 0x02000000
def CLONE_NEWUTS : Nat := 0x04000000
def CLONE_NEWIPC : Nat := 0x08000000
def CLONE_NEWUSER : Nat := 0x10000000
def CLONE_NEWPID : Nat := 0x20000000
def CLONE_NEWNET : Nat := 0x40000000

/-- The namespace mask used by the clone hardening rule: the bitwise OR of
the seven namespace-creating clone flags, exactly as in the Go source. -/
def namespaceMask : Nat :=
  CLONE_NEWNS ||| CLONE_NEWUTS ||| CLONE_NEWIPC ||| CLONE_NEWUSER |||
  CLONE_NEWPID ||| CLONE_NEWNET ||| CLONE_NEWCGROUP

/-- The architecture-resolution table (`func arches()` in the source),
with `runtime.GOARCH` passed explicitly. -/
def arches (goarch : String) : List Arch :=
  match goarch with
  | "amd64" => [.archX86_64, .archX86, .archX32]
  | "arm64" => [.archARM, .archAARCH64]
  | "mips64" => [.archMIPS, .archMIPS64, .archMIPS64N32]
  | "mips64n32" => [.archMIPS, .archMIPS64, .archMIPS64N32]
  | "mipsel64" => [.archMIPSEL, .archMIPSEL64, .archMIPSEL64N32]
  | "mipsel64n32" => [.archMIPSEL, .archMIPSEL64, .archMIPSEL64N32]
  | "s390x" => [.archS390, .archS390X]
  | "riscv64" => [.archRISCV64]
  | _ => []

/-- The fixed baseline catalogue of always-allowed syscall names, in the
source's order. -/
def baselineNames : List String := [
  "accept",
  "accept4",
  "access",
  "adjtimex",
  "alarm",
  "bind",
  "brk",
  "capget",
  "capset",
  "chdir",
  "chmod",
  "chown",
  "chown32",
  "clock_adjtime",
  "clock_adjtime64",
  "clock_getres",
  "clock_getres_time64",
  "clock_gettime",
  "clock_gettime64",
  "clock_nanosleep",
  "clock_nanosleep_time64",
  "close",
  "close_range",
  "connect",
  "copy_file_range",
  "creat",
  "dup",
  "dup2",
  "dup3",
  "epoll_create",
  "epoll_create1",
  "epoll_ctl",
  "epoll_ctl_old",
  "epoll_pwait",
  "epoll_pwait2",
  "epoll_wait",
  "epoll_wait_old",
  "eventfd",
  "eventfd2",
  "execve",
  "execveat",
  "exit",
  "exit_group",
  "faccessat",
  "faccessat2",
  "fadvise64",
  "fadvise64_64",
  "fallocate",
  "fanotify_mark",
  "fchdir",
  "fchmod",
  "fchmodat",
  "fchown",
  "fchown32",
  "fchownat",
  "fcntl",
  "fcntl64",
  "fdatasync",
  "fgetxattr",
  "flistxattr",
  "flock",
  "fork",
  "fremovexattr",
  "fsetxattr",
  "fstat",
  "fstat64",
  "fstatat64",
  "fstatfs",
  "fstatfs64",
  "fsync",
  "ftruncate",
  "ftruncate64",
  "futex",
  "futex_time64",
  "futex_waitv",
  "futimesat",
  "getcpu",
  "getcwd",
  "getdents",
  "getdents64",
  "getegid",
  "getegid32",
  "geteuid",
  "geteuid32",
  "getgid",
  "getgid32",
  "getgroups",
  "getgroups32",
  "getitimer",
  "getpeername",
  "getpgid",
  "getpgrp",
  "getpid",
  "getppid",
  "getpriority",
  "getrandom",
  "getresgid",
  "getresgid32",
  "getresuid",
  "getresuid32",
  "getrlimit",
  "get_robust_list",
  "getrusage",
  "getsid",
  "getsockname",
  "getsockopt",
  "get_thread_area",
  "gettid",
  "gettimeofday",
  "getuid",
  "getuid32",
  "getxattr",
  "inotify_add_watch",
  "inotify_init",
  "inotify_init1",
  "inotify_rm_watch",
  "io_cancel",
  "ioctl",
  "io_destroy",
  "io_getevents",
  "io_pgetevents",
  "io_pgetevents_time64",
  "ioprio_get",
  "ioprio_set",
  "io_setup",
  "io_submit",
  "io_uring_enter",
  "io_uring_register",
  "io_uring_setup",
  "ipc",
  "kill",
  "landlock_add_rule",
  "landlock_create_ruleset",
  "landlock_restrict_self",
  "lchown",
  "lchown32",
  "lgetxattr",
  "link",
  "linkat",
  "listen",
  "listxattr",
  "llistxattr",
  "_llseek",
  "lremovexattr",
  "lseek",
  "lsetxattr",
  "lstat",
  "lstat64",
  "madvise",
  "membarrier",
  "memfd_create",
  "memfd_secret",
  "mincore",
  "mkdir",
  "mkdirat",
  "mknod",
  "mknodat",
  "mlock",
  "mlock2",
  "mlockall",
  "mmap",
  "mmap2",
  "mprotect",
  "mq_getsetattr",
  "mq_notify",
  "mq_open",
  "mq_timedreceive",
  "mq_timedreceive_time64",
  "mq_timedsend",
  "mq_timedsend_time64",
  "mq_unlink",
  "mremap",
  "msgctl",
  "msgget",
  "msgrcv",
  "msgsnd",
  "msync",
  "munlock",
  "munlockall",
  "munmap",
  "name_to_handle_at",
  "nanosleep",
  "newfstatat",
  "_newselect",
  "open",
  "openat",
  "openat2",
  "pause",
  "pidfd_open",
  "pidfd_send_signal",
  "pipe",
  "pipe2",
  "pkey_alloc",
  "pkey_free",
  "pkey_mprotect",
  "poll",
  "ppoll",
  "ppoll_time64",
  "prctl",
  "pread64",
  "preadv",
  "preadv2",
  "prlimit64",
  "process_mrelease",
  "pselect6",
  "pselect6_time64",
  "pwrite64",
  "pwritev",
  "pwritev2",
  "read",
  "readahead",
  "readlink",
  "readlinkat",
  "readv",
  "recv",
  "recvfrom",
  "recvmmsg",
  "recvmmsg_time64",
  "recvmsg",
  "remap_file_pages",
  "removexattr",
  "rename",
  "renameat",
  "renameat2",
  "restart_syscall",
  "rmdir",
  "rseq",
  "rt_sigaction",
  "rt_sigpending",
  "rt_sigprocmask",
  "rt_sigqueueinfo",
  "rt_sigreturn",
  "rt_sigsuspend",
  "rt_sigtimedwait",
  "rt_sigtimedwait_time64",
  "rt_tgsigqueueinfo",
  "sched_getaffinity",
  "sched_getattr",
  "sched_getparam",
  "sched_get_priority_max",
  "sched_get_priority_min",
  "sched_getscheduler",
  "sched_rr_get_interval",
  "sched_rr_get_interval_time64",
  "sched_setaffinity",
  "sched_setattr",
  "sched_setparam",
  "sched_setscheduler",
  "sched_yield",
  "seccomp",
  "select",
  "semctl",
  "semget",
  "semop",
  "semtimedop",
  "semtimedop_time64",
  "send",
  "sendfile",
  "sendfile64",
  "sendmmsg",
  "sendmsg",
  "sendto",
  "setfsgid",
  "setfsgid32",
  "setfsuid",
  "setfsuid32",
  "setgid",
  "setgid32",
  "setgroups",
  "setgroups32",
  "setitimer",
  "setpgid",
  "setpriority",
  "setregid",
  "setregid32",
  "setresgid",
  "setresgid32",
  "setresuid",
  "setresuid32",
  "setreuid",
  "setreuid32",
  "setrlimit",
  "set_robust_list",
  "setsid",
  "setsockopt",
  "set_thread_area",
  "set_tid_address",
  "setuid",
  "setuid32",
  "setxattr",
  "shmat",
  "shmctl",
  "shmdt",
  "shmget",
  "shutdown",
  "sigaltstack",
  "signalfd",
  "signalfd4",
  "sigprocmask",
  "sigreturn",
  "socketcall",
  "socketpair",
  "splice",
  "stat",
  "stat64",
  "statfs",
  "statfs64",
  "statx",
  "symlink",
  "symlinkat",
  "sync",
  "sync_file_range",
  "syncfs",
  "sysinfo",
  "tee",
  "tgkill",
  "time",
  "timer_create",
  "timer_delete",
  "timer_getoverrun",
  "timer_gettime",
  "timer_gettime64",
  "timer_settime",
  "timer_settime64",
  "timerfd_create",
  "timerfd_gettime",
  "timerfd_gettime64",
  "timerfd_settime",
  "timerfd_settime64",
  "times",
  "tkill",
  "truncate",
  "truncate64",
  "ugetrlimit",
  "umask",
  "uname",
  "unlink",
  "unlinkat",
  "utime",
  "utimensat",
  "utimensat_time64",
  "utimes",
  "vfork",
  "vmsplice",
  "wait4",
  "waitid",
  "waitpid",
  "write",
  "writev"
]

/-- The baseline catch-all Allow rule (no argument conditions). -/
def baselineRule : Syscall :=
  { names := baselineNames, action := .actAllow, errnoRet := none, args := [] }

/-- The socket rule: one `NotEqual AF_VSOCK` condition on argument 0. -/
def socketRule : Syscall :=
  { names := ["socket"], action := .actAllow, errnoRet := none,
    args := [{ index := 0, value := AF_VSOCK, valueTwo := 0, op := .opNotEqual }] }

/-- One of the five personality whitelist rules: `EqualTo v` on argument 0. -/
def personalityRule (v : Nat) : Syscall :=
  { names := ["personality"], action := .actAllow, errnoRet := none,
    args := [{ index := 0, value := v, valueTwo := 0, op := .opEqualTo }] }

/-- The fixed baseline rule sequence built first by `DefaultProfile`. -/
def baselineSyscalls : List Syscall :=
  [baselineRule, socketRule,
   personalityRule 0x0, personalityRule 0x0008, personalityRule 0x20000,
   personalityRule 0x20008, personalityRule 0xffffffff]

/-- The kernel-4.8-gated rule group. -/
def ptraceRule : Syscall :=
  { names := ["process_vm_readv", "process_vm_writev", "ptrace"],
    action := .actAllow, errnoRet := none, args := [] }

/-- An argument-free Allow rule, the shape shared by every architecture- and
capability-keyed group. -/
def allowAll (names : List String) : Syscall :=
  { names := names, action := .actAllow, errnoRet := none, args := [] }

/-- The per-architecture extra syscall groups (the `switch runtime.GOARCH`
after the kernel-version gate). -/
def archSyscalls (goarch : String) : List Syscall :=
  match goarch with
  | "ppc64le" =>
      [allowAll ["sync_file_range2", "swapcontext"]]
  | "arm" | "arm64" =>
      [allowAll ["arm_fadvise64_64", "arm_sync_file_range", "sync_file_range2",
                 "breakpoint", "cacheflush", "set_tls"]]
  | "amd64" =>
      [allowAll ["arch_prctl", "modify_ldt"]]
  | "386" =>
      [allowAll ["modify_ldt"]]
  | "s390" | "s390x" =>
      [allowAll ["s390_pci_mmio_read", "s390_pci_mmio_write", "s390_runtime_instr"]]
  | "riscv64" =>
      [allowAll ["riscv_flush_icache"]]
  | _ => []

/-- The rules one capability-loop iteration appends for token `c`: one arm
per case of the `switch c` in the source, `[]` for the default (an
unrecognized token). -/
def capRuleList (c : String) : List Syscall :=
  match c with
  | "CAP_DAC_READ_SEARCH" => [allowAll ["open_by_handle_at"]]
  | "CAP_SYS_ADMIN" =>
      [allowAll ["bpf", "clone", "clone3", "fanotify_init", "fsconfig",
                 "fsmount", "fsopen", "fspick", "lookup_dcookie", "mount",
                 "mount_setattr", "move_mount", "open_tree", "perf_event_open",
                 "quotactl", "quotactl_fd", "setdomainname", "sethostname",
                 "setns", "syslog", "umount", "umount2", "unshare"]]
  | "CAP_SYS_BOOT" => [allowAll ["reboot"]]
  | "CAP_SYS_CHROOT" => [allowAll ["chroot"]]
  | "CAP_SYS_MODULE" => [allowAll ["delete_module", "init_module", "finit_module"]]
  | "CAP_SYS_PACCT" => [allowAll ["acct"]]
  | "CAP_SYS_PTRACE" =>
      [allowAll ["kcmp", "pidfd_getfd", "process_madvise", "process_vm_readv",
                 "process_vm_writev", "ptrace"]]
  | "CAP_SYS_RAWIO" => [allowAll ["iopl", "ioperm"]]
  | "CAP_SYS_TIME" =>
      [allowAll ["settimeofday", "stime", "clock_settime", "clock_settime64"]]
  | "CAP_SYS_TTY_CONFIG" => [allowAll ["vhangup"]]
  | "CAP_SYS_NICE" => [allowAll ["get_mempolicy", "mbind", "set_mempolicy"]]
  | "CAP_SYSLOG" => [allowAll ["syslog"]]
  | "CAP_BPF" => [allowAll ["bpf"]]
  | "CAP_PERFMON" => [allowAll ["perf_event_open"]]
  | _ => []

/-- The capability loop (`for _, c := range bounding`): each iteration
appends `capRuleList c` to the rule sequence and raises the `admin` flag
when the token is `CAP_SYS_ADMIN` (the only arm of the source's switch that
sets `admin = true`). -/
def capLoop : List String → List Syscall × Bool → List Syscall × Bool
  | [], acc => acc
  | c :: rest, (rules, admin) =>
      capLoop rest (rules ++ capRuleList c, admin || (c == "CAP_SYS_ADMIN"))

/-- The namespace-hardening clone rule: one masked-equality condition
`(arg[index] & namespaceMask) == 0`, with the flags-argument index passed
in (1 on s390/s390x, 0 elsewhere). -/
def cloneRule (index : Nat) : Syscall :=
  { names := ["clone"], action := .actAllow, errnoRet := none,
    args := [{ index := index, value := namespaceMask, valueTwo := 0,
               op := .opMaskedEqual }] }

/-- The clone3 hardening rule: errno action with forced return ENOSYS and
no argument conditions. -/
def clone3Rule : Syscall :=
  { names := ["clone3"], action := .actErrno, errnoRet := some enosys, args := [] }

/-- Shallow embedding of `DefaultProfile`.  `goarch` stands for
`runtime.GOARCH`, `probe` for `kernelversion.GreaterEqualThan`.  The result
is `none` exactly when the Go code dereferences a nil `Process` or
`Capabilities` pointer (a panic); otherwise `some` of the policy. -/
def DefaultProfile (goarch : String) (probe : KernelOracle) (sp : Spec) :
    Option LinuxSeccomp :=
  match sp.process with
  | none => none
  | some proc =>
  match proc.capabilities with
  | none => none
  | some caps =>
  let s0 : LinuxSeccomp :=
    { defaultAction := .actErrno, architectures := arches goarch,
      syscalls := baselineSyscalls }
  -- include by kernel version
  let s1 : LinuxSeccomp :=
    match probe { kernel := 4, major := 8 } with
    | (ok, none) =>
        if ok then { s0 with syscalls := s0.syscalls ++ [ptraceRule] } else s0
    | (_, some _) => s0
  -- include by arch
  let s2 : LinuxSeccomp := { s1 with syscalls := s1.syscalls ++ archSyscalls goarch }
  -- capability loop
  let acc := capLoop caps.bounding (s2.syscalls, false)
  let s3 : LinuxSeccomp := { s2 with syscalls := acc.1 }
  -- namespace hardener
  if acc.2 then some s3
  else
    let withClone : LinuxSeccomp :=
      match goarch with
      | "s390" | "s390x" => { s3 with syscalls := s3.syscalls ++ [cloneRule 1] }
      | _ => { s3 with syscalls := s3.syscalls ++ [cloneRule 0] }
    some { withClone with syscalls := withClone.syscalls ++ [clone3Rule] }

/-- A specification with both pointers present and the given bounding set:
the shape every real caller passes. -/
def mkSpec (bounding : List String) : Spec :=
  { process := some { capabilities := some { bounding := bounding } } }

/-- The rules contributed by the kernel-version gate for a given oracle:
`[ptraceRule]` when the probe answers `(true, nil)`, nothing otherwise. -/
def gateRules (probe : KernelOracle) : List Syscall :=
  match probe { kernel := 4, major := 8 } with
  | (ok, none) => if ok then [ptraceRule] else []
  | (_, some _) => []

/-- The flags-argument index picked by the namespace hardener: 1 on the
s390 family, 0 for every other architecture. -/
def cloneIndex (goarch : String) : Nat :=
  match goarch with
  | "s390" | "s390x" => 1
  | _ => 0

/-- The rule sequence of the policy `DefaultProfile` returns for a spec
with both pointers present; proved equal to the real pipeline in
`DefaultProfile_mkSpec` below. -/
def profileSyscalls (goarch : String) (probe : KernelOracle)
    (bounding : List String) : List Syscall :=
  baselineSyscalls ++ gateRules probe ++ archSyscalls goarch
    ++ bounding.flatMap capRuleList
    ++ (if bounding.any (· == "CAP_SYS_ADMIN") then []
        else [cloneRule (cloneIndex goarch), clone3Rule])

/-- All fourteen capability rule groups, in source order; every rule the
capability loop can append is in this list (`capRuleList_mem`). -/
def allCapRules : List Syscall :=
  [allowAll ["open_by_handle_at"],
   allowAll ["bpf", "clone", "clone3", "fanotify_init", "fsconfig",
             "fsmount", "fsopen", "fspick", "lookup_dcookie", "mount",
             "mount_setattr", "move_mount", "open_tree", "perf_event_open",
             "quotactl", "quotactl_fd", "setdomainname", "sethostname",
             "setns", "syslog", "umount", "umount2", "unshare"],
   allowAll ["reboot"],
   allowAll ["chroot"],
   allowAll ["delete_module", "init_module", "finit_module"],
   allowAll ["acct"],
   allowAll ["kcmp", "pidfd_getfd", "process_madvise", "process_vm_readv",
             "process_vm_writev", "ptrace"],
   allowAll ["iopl", "ioperm"],
   allowAll ["settimeofday", "stime", "clock_settime", "clock_settime64"],
   allowAll ["vhangup"],
   allowAll ["get_mempolicy", "mbind", "set_mempolicy"],
   allowAll ["syslog"],
   allowAll ["bpf"],
   allowAll ["perf_event_open"]]

/-- All six per-architecture extra rule groups; every rule `archSyscalls`
can return is in this list (`archSyscalls_mem`). -/
def allArchRules : List Syscall :=
  [allowAll ["sync_file_range2", "swapcontext"],
   allowAll ["arm_fadvise64_64", "arm_sync_file_range", "sync_file_range2",
             "breakpoint", "cacheflush", "set_tls"],
   allowAll ["arch_prctl", "modify_ldt"],
   allowAll ["modify_ldt"],
   allowAll ["s390_pci_mmio_read", "s390_pci_mmio_write", "s390_runtime_instr"],
   allowAll ["riscv_flush_icache"]]

/-- Modelled from the spec: the capability-to-syscall-group table of the
specification (section 4.4), transcribed from the spec's own wording.  The
name sets are compared with the code's `capRuleList` up to permutation. -/
def specCapTable : List (String × List String) :=
  [("CAP_DAC_READ_SEARCH", ["open_by_handle_at"]),
   ("CAP_SYS_ADMIN",
    ["bpf", "clone", "clone3", "fsopen", "fsconfig", "fsmount", "fspick",
     "mount", "mount_setattr", "move_mount", "open_tree", "umount",
     "umount2", "fanotify_init", "lookup_dcookie", "perf_event_open",
     "quotactl", "quotactl_fd", "setdomainname", "sethostname", "setns",
     "syslog", "unshare"]),
   ("CAP_SYS_BOOT", ["reboot"]),
   ("CAP_SYS_CHROOT", ["chroot"]),
   ("CAP_SYS_MODULE", ["init_module", "finit_module", "delete_module"]),
   ("CAP_SYS_PACCT", ["acct"]),
   ("CAP_SYS_PTRACE",
    ["ptrace", "process_vm_readv", "process_vm_writev", "process_madvise",
     "pidfd_getfd", "kcmp"]),
   ("CAP_SYS_RAWIO", ["iopl", "ioperm"]),
   ("CAP_SYS_TIME", ["settimeofday", "stime", "clock_settime", "clock_settime64"]),
   ("CAP_SYS_TTY_CONFIG", ["vhangup"]),
   ("CAP_SYS_NICE", ["get_mempolicy", "set_mempolicy", "mbind"]),
   ("CAP_SYSLOG", ["syslog"]),
   ("CAP_BPF", ["bpf"]),
   ("CAP_PERFMON", ["perf_event_open"])]

/-- An oracle that reports the kernel requirement unmet, without error. -/
def probeFalse : KernelOracle := fun _ => (false, none)

/-- An oracle that reports the kernel requirement met, without error. -/
def probeTrue : KernelOracle := fun _ => (true, none)

/-- An oracle that fails (non-nil error). -/
def probeErr : KernelOracle := fun _ => (false, some "unknown kernel")

section Lemmas

/-- Unrolling the capability loop: the rules appended are the concatenation
of the per-token groups, and the admin flag records whether CAP_SYS_ADMIN
was seen. -/
theorem capLoop_eq (l : List String) (rules : List Syscall) (admin : Bool) :
    capLoop l (rules, admin) =
      (rules ++ l.flatMap capRuleList, admin || l.any (· == "CAP_SYS_ADMIN")) := by
  induction l generalizing rules admin with
  | nil => simp [capLoop]
  | cons c rest ih =>
      simp [capLoop, ih, List.flatMap_cons, List.append_assoc, Bool.or_assoc,
        List.any_cons]

/-- The full pipeline on a well-formed spec: it always returns `some`, with
default deny action, the architecture table, and the staged rule sequence. -/
theorem DefaultProfile_mkSpec (goarch : String) (probe : KernelOracle)
    (bounding : List String) :
    DefaultProfile goarch probe (mkSpec bounding) =
      some { defaultAction := .actErrno, architectures := arches goarch,
             syscalls := profileSyscalls goarch probe bounding } := by
  unfold DefaultProfile mkSpec profileSyscalls gateRules cloneIndex
  simp only [capLoop_eq, Bool.false_or]
  rcases hp : probe { kernel := 4, major := 8 } with ⟨ok, err⟩
  cases err with
  | none =>
      cases ok <;>
        rcases ha : bounding.any (· == "CAP_SYS_ADMIN") <;>
          simp [hp, ha] <;> (try split) <;> simp [List.append_assoc]
  | some e =>
      rcases ha : bounding.any (· == "CAP_SYS_ADMIN") <;>
        simp [hp, ha] <;> (try split) <;> simp [List.append_assoc]

/-- Every rule the capability loop can append is one of the fourteen fixed
groups. -/
theorem capRuleList_mem {c : String} {r : Syscall} (h : r ∈ capRuleList c) :
    r ∈ allCapRules := by
  unfold capRuleList at h
  split at h <;> simp_all [allCapRules]

/-- Every rule the per-architecture stage can append is one of the six
fixed groups. -/
theorem archSyscalls_mem {g : String} {r : Syscall} (h : r ∈ archSyscalls g) :
    r ∈ allArchRules := by
  unfold archSyscalls at h
  split at h <;> simp_all [allArchRules]

/-- The kernel-version gate contributes either nothing or exactly the
ptrace group. -/
theorem gateRules_cases (probe : KernelOracle) :
    gateRules probe = [] ∨ gateRules probe = [ptraceRule] := by
  unfold gateRules
  rcases probe { kernel := 4, major := 8 } with ⟨ok, err⟩
  cases err <;> cases ok <;> simp

/-- The hardener's flags-argument index as a plain conditional. -/
theorem cloneIndex_eq (g : String) :
    cloneIndex g = if g = "s390" ∨ g = "s390x" then 1 else 0 := by
  unfold cloneIndex
  split <;> simp_all

/-- Filtering the capability-stage rules by a predicate that holds for none
of the fourteen groups yields nothing. -/
theorem filter_flatMap_nil {p : Syscall → Bool}
    (h : ∀ r ∈ allCapRules, ¬ p r) (l : List String) :
    (l.flatMap capRuleList).filter p = [] := by
  rw [List.filter_eq_nil_iff]
  intro r hr
  obtain ⟨a, -, hra⟩ := List.mem_flatMap.mp hr
  exact h r (capRuleList_mem hra)

/-- Filtering the per-architecture rules by a predicate that holds for none
of the six groups yields nothing. -/
theorem filter_arch_nil {p : Syscall → Bool}
    (h : ∀ r ∈ allArchRules, ¬ p r) (g : String) :
    (archSyscalls g).filter p = [] := by
  rw [List.filter_eq_nil_iff]
  intro r hr
  exact h r (archSyscalls_mem hr)

end Lemmas

section Claims

/-- C4: the architecture-resolution function returns, for every architecture
listed in its table, the exact non-empty set of ArchIds covering that
architecture's ABI variants, and for every architecture string not in the
table it returns the empty set rather than failing. -/
theorem arches_resolution :
    (arches "amd64" = [.archX86_64, .archX86, .archX32] ∧
     arches "arm64" = [.archARM, .archAARCH64] ∧
     arches "mips64" = [.archMIPS, .archMIPS64, .archMIPS64N32] ∧
     arches "mips64n32" = [.archMIPS, .archMIPS64, .archMIPS64N32] ∧
     arches "mipsel64" = [.archMIPSEL, .archMIPSEL64, .archMIPSEL64N32] ∧
     arches "mipsel64n32" = [.archMIPSEL, .archMIPSEL64, .archMIPSEL64N32] ∧
     arches "s390x" = [.archS390, .archS390X] ∧
     arches "riscv64" = [.archRISCV64]) ∧
    (∀ g, g ∈ ["amd64", "arm64", "mips64", "mips64n32", "mipsel64",
               "mipsel64n32", "s390x", "riscv64"] → arches g ≠ []) ∧
    (∀ g, g ∉ ["amd64", "arm64", "mips64", "mips64n32", "mipsel64",
               "mipsel64n32", "s390x", "riscv64"] → arches g = []) := by
  refine ⟨by decide, ?_, ?_⟩
  · intro g hg
    fin_cases hg <;> decide
  · intro g hg
    unfold arches
    split <;> simp_all

/-- Witness for C4 at concrete inputs: "ppc64le" is not in the table and
resolves to the empty set, while "amd64" resolves to its three ABIs. -/
theorem arches_resolution_witness :
    arches "ppc64le" = [] ∧ arches "amd64" = [.archX86_64, .archX86, .archX32] :=
  ⟨arches_resolution.2.2 "ppc64le" (by decide), arches_resolution.1.1⟩

/-- C1: whenever CAP_SYS_ADMIN is absent from the bounding set, the policy
contains the clone Allow rule with exactly one masked-equality condition
(mask the OR of the seven namespace-creating flags, valueTwo 0), indexed 1
on s390/s390x and 0 elsewhere; when CAP_SYS_ADMIN is present no clone rule
with argument conditions exists. -/
theorem clone_namespace_rule (goarch : String) (probe : KernelOracle)
    (bounding : List String) :
    ∃ s, DefaultProfile goarch probe (mkSpec bounding) = some s ∧
      (("CAP_SYS_ADMIN" ∉ bounding →
          { names := ["clone"], action := .actAllow, errnoRet := none,
            args := [{ index := if goarch = "s390" ∨ goarch = "s390x" then 1 else 0,
                       value := CLONE_NEWNS ||| CLONE_NEWUTS ||| CLONE_NEWIPC |||
                                CLONE_NEWUSER ||| CLONE_NEWPID ||| CLONE_NEWNET |||
                                CLONE_NEWCGROUP,
                       valueTwo := 0, op := .opMaskedEqual }] } ∈ s.syscalls) ∧
       ("CAP_SYS_ADMIN" ∈ bounding →
          ∀ r ∈ s.syscalls, "clone" ∈ r.names → r.args = [])) := by
  refine ⟨_, DefaultProfile_mkSpec goarch probe bounding, ?_, ?_⟩
  · intro h
    have ha : bounding.any (· == "CAP_SYS_ADMIN") = false := by
      simp only [List.any_eq_false, beq_iff_eq]
      exact fun x hx hxe => h (hxe ▸ hx)
    simp only [profileSyscalls, ha, Bool.false_eq_true, if_false, List.mem_append,
      List.mem_cons, cloneRule, cloneIndex_eq, namespaceMask]
    tauto
  · intro h
    have ha : bounding.any (· == "CAP_SYS_ADMIN") = true := by
      simp only [List.any_eq_true, beq_iff_eq]
      exact ⟨_, h, rfl⟩
    intro r hr hclone
    simp only [profileSyscalls, ha, if_true, List.append_nil, List.mem_append,
      List.mem_flatMap] at hr
    rcases hr with ((h1 | h2) | h3) | ⟨a, _, h4⟩
    · exact (by decide : ∀ r ∈ baselineSyscalls, "clone" ∈ r.names → r.args = []) r h1 hclone
    · rcases gateRules_cases probe with he | he <;> rw [he] at h2
      · exact absurd h2 (List.not_mem_nil r)
      · exact (by decide : ∀ r ∈ [ptraceRule], "clone" ∈ r.names → r.args = []) r h2 hclone
    · exact (by decide : ∀ r ∈ allArchRules, "clone" ∈ r.names → r.args = []) r
        (archSyscalls_mem h3) hclone
    · exact (by decide : ∀ r ∈ allCapRules, "clone" ∈ r.names → r.args = []) r
        (capRuleList_mem h4) hclone

/-- Witness for C1: on s390x with an empty bounding set the clone rule is
present with argument index 1, and on amd64 with CAP_SYS_ADMIN present no
argument-conditioned clone rule exists. -/
theorem clone_namespace_rule_witness :
    (∃ s, DefaultProfile "s390x" probeFalse (mkSpec []) = some s ∧
       { names := ["clone"], action := .actAllow, errnoRet := none,
         args := [{ index := 1,
                    value := CLONE_NEWNS ||| CLONE_NEWUTS ||| CLONE_NEWIPC |||
                             CLONE_NEWUSER ||| CLONE_NEWPID ||| CLONE_NEWNET |||
                             CLONE_NEWCGROUP,
                    valueTwo := 0, op := .opMaskedEqual }] } ∈ s.syscalls) ∧
    (∃ s, DefaultProfile "amd64" probeFalse (mkSpec ["CAP_SYS_ADMIN"]) = some s ∧
       ∀ r ∈ s.syscalls, "clone" ∈ r.names → r.args = []) := by
  constructor
  · obtain ⟨s, hs, h1, _⟩ := clone_namespace_rule "s390x" probeFalse []
    exact ⟨s, hs, by simpa using h1 (by decide)⟩
  · obtain ⟨s, hs, _, h2⟩ := clone_namespace_rule "amd64" probeFalse ["CAP_SYS_ADMIN"]
    exact ⟨s, hs, h2 (by decide)⟩

/-- C2: whenever CAP_SYS_ADMIN is absent from the bounding set, the policy
contains a clone3 rule with the errno action, forced return code ENOSYS and
no argument conditions; when CAP_SYS_ADMIN is present no errno-action
clone3 rule exists. -/
theorem clone3_enosys_rule (goarch : String) (probe : KernelOracle)
    (bounding : List String) :
    ∃ s, DefaultProfile goarch probe (mkSpec bounding) = some s ∧
      (("CAP_SYS_ADMIN" ∉ bounding →
          { names := ["clone3"], action := .actErrno, errnoRet := some enosys,
            args := ([] : List SeccompArg) } ∈ s.syscalls) ∧
       ("CAP_SYS_ADMIN" ∈ bounding →
          ∀ r ∈ s.syscalls, "clone3" ∈ r.names → r.action = .actAllow)) := by
  refine ⟨_, DefaultProfile_mkSpec goarch probe bounding, ?_, ?_⟩
  · intro h
    have ha : bounding.any (· == "CAP_SYS_ADMIN") = false := by
      simp only [List.any_eq_false, beq_iff_eq]
      exact fun x hx hxe => h (hxe ▸ hx)
    simp only [profileSyscalls, ha, Bool.false_eq_true, if_false, List.mem_append,
      List.mem_cons, clone3Rule]
    tauto
  · intro h
    have ha : bounding.any (· == "CAP_SYS_ADMIN") = true := by
      simp only [List.any_eq_true, beq_iff_eq]
      exact ⟨_, h, rfl⟩
    intro r hr hclone
    simp only [profileSyscalls, ha, if_true, List.append_nil, List.mem_append,
      List.mem_flatMap] at hr
    rcases hr with ((h1 | h2) | h3) | ⟨a, _, h4⟩
    · exact (by decide : ∀ r ∈ baselineSyscalls,
        "clone3" ∈ r.names → r.action = .actAllow) r h1 hclone
    · rcases gateRules_cases probe with he | he <;> rw [he] at h2
      · exact absurd h2 (List.not_mem_nil r)
      · exact (by decide : ∀ r ∈ [ptraceRule],
          "clone3" ∈ r.names → r.action = .actAllow) r h2 hclone
    · exact (by decide : ∀ r ∈ allArchRules,
        "clone3" ∈ r.names → r.action = .actAllow) r (archSyscalls_mem h3) hclone
    · exact (by decide : ∀ r ∈ allCapRules,
        "clone3" ∈ r.names → r.action = .actAllow) r (capRuleList_mem h4) hclone

/-- Witness for C2: with an empty bounding set the ENOSYS clone3 rule is
present; with CAP_SYS_ADMIN every clone3-naming rule allows. -/
theorem clone3_enosys_rule_witness :
    (∃ s, DefaultProfile "amd64" probeFalse (mkSpec []) = some s ∧
       { names := ["clone3"], action := .actErrno, errnoRet := some enosys,
         args := ([] : List SeccompArg) } ∈ s.syscalls) ∧
    (∃ s, DefaultProfile "amd64" probeFalse (mkSpec ["CAP_SYS_ADMIN"]) = some s ∧
       ∀ r ∈ s.syscalls, "clone3" ∈ r.names → r.action = .actAllow) := by
  constructor
  · obtain ⟨s, hs, h1, _⟩ := clone3_enosys_rule "amd64" probeFalse []
    exact ⟨s, hs, h1 (by decide)⟩
  · obtain ⟨s, hs, _, h2⟩ := clone3_enosys_rule "amd64" probeFalse ["CAP_SYS_ADMIN"]
    exact ⟨s, hs, h2 (by decide)⟩

/-- C3: the kernel-version gate adds the exact rule group
{process_vm_readv, process_vm_writev, ptrace} (Allow, no argument
conditions) precisely when the oracle answers (true, nil); on (false, nil)
or any error answer the group is absent; and the oracle's error is never
propagated: DefaultProfile returns a policy for every oracle behavior. -/
theorem version_gate (goarch : String) (probe : KernelOracle)
    (bounding : List String) :
    ∃ s, DefaultProfile goarch probe (mkSpec bounding) = some s ∧
      ((probe { kernel := 4, major := 8 } = (true, none) →
          { names := ["process_vm_readv", "process_vm_writev", "ptrace"],
            action := .actAllow, errnoRet := none,
            args := ([] : List SeccompArg) } ∈ s.syscalls) ∧
       ((probe { kernel := 4, major := 8 } = (false, none) ∨
         (∃ b e, probe { kernel := 4, major := 8 } = (b, some e))) →
          ∀ r ∈ s.syscalls,
            r.names ≠ ["process_vm_readv", "process_vm_writev", "ptrace"])) := by
  refine ⟨_, DefaultProfile_mkSpec goarch probe bounding, ?_, ?_⟩
  · intro hp
    have hg : gateRules probe = [ptraceRule] := by
      unfold gateRules
      rw [hp]
      simp
    simp only [profileSyscalls, hg, List.mem_append, List.mem_cons, ptraceRule]
    tauto
  · intro hp
    have hg : gateRules probe = [] := by
      unfold gateRules
      rcases hp with hp | ⟨b, e, hp⟩ <;> rw [hp]
      simp
    intro r hr hnames
    simp only [profileSyscalls, hg, List.append_nil, List.mem_append,
      List.mem_flatMap] at hr
    rcases hr with ((h1 | h3) | ⟨a, _, h4⟩) | h5
    · exact (by decide : ∀ r ∈ baselineSyscalls,
        ¬ r.names = ["process_vm_readv", "process_vm_writev", "ptrace"]) r h1 hnames
    · exact (by decide : ∀ r ∈ allArchRules,
        ¬ r.names = ["process_vm_readv", "process_vm_writev", "ptrace"]) r
        (archSyscalls_mem h3) hnames
    · exact (by decide : ∀ r ∈ allCapRules,
        ¬ r.names = ["process_vm_readv", "process_vm_writev", "ptrace"]) r
        (capRuleList_mem h4) hnames
    · cases hb : bounding.any (· == "CAP_SYS_ADMIN") with
      | false =>
          simp only [hb, Bool.false_eq_true, if_false, List.mem_cons,
            List.not_mem_nil, or_false] at h5
          rcases h5 with h5 | h5
          · rw [h5] at hnames
            exact absurd hnames (by simp [cloneRule])
          · rw [h5] at hnames
            exact absurd hnames (by decide)
      | true =>
          simp only [hb, if_true] at h5
          exact absurd h5 (List.not_mem_nil r)

/-- Witness for C3: with the always-true oracle the ptrace group is present;
with the failing oracle the group is absent from every rule. -/
theorem version_gate_witness :
    (∃ s, DefaultProfile "amd64" probeTrue (mkSpec []) = some s ∧
       { names := ["process_vm_readv", "process_vm_writev", "ptrace"],
         action := .actAllow, errnoRet := none,
         args := ([] : List SeccompArg) } ∈ s.syscalls) ∧
    (∃ s, DefaultProfile "amd64" probeErr (mkSpec []) = some s ∧
       ∀ r ∈ s.syscalls,
         r.names ≠ ["process_vm_readv", "process_vm_writev", "ptrace"]) := by
  constructor
  · obtain ⟨s, hs, h1, _⟩ := version_gate "amd64" probeTrue []
    exact ⟨s, hs, h1 rfl⟩
  · obtain ⟨s, hs, _, h2⟩ := version_gate "amd64" probeErr []
    exact ⟨s, hs, h2 (Or.inr ⟨false, "unknown kernel", rfl⟩)⟩

/-- C5: for every input, the rules naming the personality syscall are
exactly the five Allow rules with a single EqualTo condition on argument 0
and the literal values 0x0, 0x0008, 0x20000, 0x20008 and 0xffffffff. -/
theorem personality_whitelist (goarch : String) (probe : KernelOracle)
    (bounding : List String) :
    ∃ s, DefaultProfile goarch probe (mkSpec bounding) = some s ∧
      s.syscalls.filter (fun r => r.names.contains "personality") =
        [{ names := ["personality"], action := .actAllow, errnoRet := none,
           args := [{ index := 0, value := 0x0, valueTwo := 0, op := .opEqualTo }] },
         { names := ["personality"], action := .actAllow, errnoRet := none,
           args := [{ index := 0, value := 0x0008, valueTwo := 0, op := .opEqualTo }] },
         { names := ["personality"], action := .actAllow, errnoRet := none,
           args := [{ index := 0, value := 0x20000, valueTwo := 0, op := .opEqualTo }] },
         { names := ["personality"], action := .actAllow, errnoRet := none,
           args := [{ index := 0, value := 0x20008, valueTwo := 0, op := .opEqualTo }] },
         { names := ["personality"], action := .actAllow, errnoRet := none,
           args := [{ index := 0, value := 0xffffffff, valueTwo := 0,
                      op := .opEqualTo }] }] := by
  refine ⟨_, DefaultProfile_mkSpec goarch probe bounding, ?_⟩
  have htail : (List.filter (fun r => r.names.contains "personality")
      (if bounding.any (· == "CAP_SYS_ADMIN") = true then []
       else [cloneRule (cloneIndex goarch), clone3Rule])) = [] := by
    split <;> rfl
  have hcap : (bounding.flatMap capRuleList).filter
      (fun r => r.names.contains "personality") = [] :=
    filter_flatMap_nil (by decide) bounding
  have harch : (archSyscalls goarch).filter
      (fun r => r.names.contains "personality") = [] :=
    filter_arch_nil (by decide) goarch
  simp only [profileSyscalls, List.filter_append, htail, hcap, harch]
  rcases gateRules_cases probe with he | he <;> rw [he] <;> decide

/-- C6: for every input, exactly one rule names the socket syscall: the
Allow rule with the single NotEqual AF_VSOCK condition on argument 0. -/
theorem socket_vsock_rule (goarch : String) (probe : KernelOracle)
    (bounding : List String) :
    ∃ s, DefaultProfile goarch probe (mkSpec bounding) = some s ∧
      s.syscalls.filter (fun r => r.names.contains "socket") =
        [{ names := ["socket"], action := .actAllow, errnoRet := none,
           args := [{ index := 0, value := AF_VSOCK, valueTwo := 0,
                      op := .opNotEqual }] }] := by
  refine ⟨_, DefaultProfile_mkSpec goarch probe bounding, ?_⟩
  have htail : (List.filter (fun r => r.names.contains "socket")
      (if bounding.any (· == "CAP_SYS_ADMIN") = true then []
       else [cloneRule (cloneIndex goarch), clone3Rule])) = [] := by
    split <;> rfl
  have hcap : (bounding.flatMap capRuleList).filter
      (fun r => r.names.contains "socket") = [] :=
    filter_flatMap_nil (by decide) bounding
  have harch : (archSyscalls goarch).filter
      (fun r => r.names.contains "socket") = [] :=
    filter_arch_nil (by decide) goarch
  simp only [profileSyscalls, List.filter_append, htail, hcap, harch]
  rcases gateRules_cases probe with he | he <;> rw [he] <;> decide

/-- C7: every capability token of the bounding set that matches a table
entry contributes its Allow rule group (no argument conditions) to the
policy; the code's fourteen groups agree with the specification's table up
to ordering of the name sets; and every unmatched token contributes
nothing. -/
theorem capability_table (goarch : String) (probe : KernelOracle)
    (bounding : List String) :
    (∀ c r, c ∈ bounding → r ∈ capRuleList c →
       ∃ s, DefaultProfile goarch probe (mkSpec bounding) = some s ∧
         r ∈ s.syscalls ∧ r.action = .actAllow ∧ r.args = []) ∧
    (∀ p ∈ specCapTable, ∃ r, capRuleList p.1 = [r] ∧
       r.action = .actAllow ∧ r.args = [] ∧ r.names.Perm p.2) ∧
    (∀ c, c ∉ specCapTable.map Prod.fst → capRuleList c = []) := by
  refine ⟨?_, ?_, ?_⟩
  · intro c r hc hr
    have hprops := (by decide : ∀ r ∈ allCapRules,
      r.action = .actAllow ∧ r.args = []) r (capRuleList_mem hr)
    refine ⟨_, DefaultProfile_mkSpec goarch probe bounding, ?_, hprops.1, hprops.2⟩
    simp only [profileSyscalls, List.mem_append, List.mem_flatMap]
    exact Or.inl (Or.inr ⟨c, hc, hr⟩)
  · intro p hp
    fin_cases hp <;> exact ⟨_, rfl, rfl, rfl, by decide⟩
  · intro c hc
    unfold capRuleList
    split <;> simp_all [specCapTable]

/-- Witness for C7: CAP_SYS_BOOT in the bounding set yields the reboot
rule in the policy, and an unknown token yields no rule group. -/
theorem capability_table_witness :
    (∃ s, DefaultProfile "amd64" probeFalse (mkSpec ["CAP_SYS_BOOT"]) = some s ∧
       allowAll ["reboot"] ∈ s.syscalls ∧
       (allowAll ["reboot"]).action = .actAllow ∧
       (allowAll ["reboot"]).args = []) ∧
    (∃ r, capRuleList "CAP_SYS_BOOT" = [r] ∧ r.action = .actAllow ∧
       r.args = [] ∧ r.names.Perm ["reboot"]) ∧
    capRuleList "CAP_NET_ADMIN" = [] := by
  obtain ⟨h1, h2, h3⟩ := capability_table "amd64" probeFalse ["CAP_SYS_BOOT"]
  exact ⟨h1 "CAP_SYS_BOOT" (allowAll ["reboot"]) (by decide) (by decide),
         h2 ("CAP_SYS_BOOT", ["reboot"]) (by decide),
         h3 "CAP_NET_ADMIN" (by decide)⟩

set_option maxRecDepth 4000 in
/-- C8 counterexample: duplicating a recognized capability token is not
idempotent at the level of the rule sequence: the duplicated token appends
its group rule a second time, so the two policies differ. -/
theorem capability_duplicate_changes_policy :
    DefaultProfile "amd64" probeFalse (mkSpec ["CAP_SYS_BOOT", "CAP_SYS_BOOT"]) ≠
      DefaultProfile "amd64" probeFalse (mkSpec ["CAP_SYS_BOOT"]) := by
  decide

/-- C8 amended: duplicate capability tokens are idempotent up to rule
multiplicity: duplicating a token preserves the default action, the
architecture set, and the set of rules present (the duplicate only appends
an identical extra copy of the token's group rule). -/
theorem capability_duplicate_same_rule_set (goarch : String)
    (probe : KernelOracle) (l1 l2 : List String) (c : String) :
    ∃ s₁ s₂,
      DefaultProfile goarch probe (mkSpec (l1 ++ c :: c :: l2)) = some s₁ ∧
      DefaultProfile goarch probe (mkSpec (l1 ++ c :: l2)) = some s₂ ∧
      s₁.defaultAction = s₂.defaultAction ∧
      s₁.architectures = s₂.architectures ∧
      (∀ r, r ∈ s₁.syscalls ↔ r ∈ s₂.syscalls) := by
  refine ⟨_, _, DefaultProfile_mkSpec goarch probe (l1 ++ c :: c :: l2),
    DefaultProfile_mkSpec goarch probe (l1 ++ c :: l2), rfl, rfl, ?_⟩
  have hany : (l1 ++ c :: c :: l2).any (· == "CAP_SYS_ADMIN") =
      (l1 ++ c :: l2).any (· == "CAP_SYS_ADMIN") := by
    simp only [List.any_append, List.any_cons]
    cases (c == "CAP_SYS_ADMIN") <;> simp
  have hflat : ∀ x : Syscall, x ∈ (l1 ++ c :: c :: l2).flatMap capRuleList ↔
      x ∈ (l1 ++ c :: l2).flatMap capRuleList := by
    intro x
    simp only [List.mem_flatMap, List.mem_append, List.mem_cons]
    constructor <;> rintro ⟨a, ha, hr⟩ <;> exact ⟨a, by tauto, hr⟩
  intro r
  simp only [profileSyscalls, hany, List.mem_append]
  rw [hflat r]

/-- C9 counterexample: a specification with an absent (nil) process field
makes the pipeline dereference a nil pointer (modeled as `none`) instead of
returning a policy, so DefaultProfile does have a fatal path on such
inputs. -/
theorem nil_process_fatal :
    DefaultProfile "amd64" probeFalse { process := none } = none := rfl

/-- C9 amended: for every specification whose process and capability fields
are both present, and for every architecture and oracle behavior,
DefaultProfile terminates normally and returns a policy (with the default
deny action); a nil process or capabilities field instead reproduces Go's
nil-pointer dereference. -/
theorem no_fatal_path (goarch : String) (probe : KernelOracle) (sp : Spec)
    (proc : Process) (caps : LinuxCapabilities)
    (hp : sp.process = some proc) (hc : proc.capabilities = some caps) :
    ∃ s, DefaultProfile goarch probe sp = some s ∧
      s.defaultAction = .actErrno := by
  rcases sp with ⟨op⟩
  have hp' : op = some proc := hp
  subst hp'
  rcases proc with ⟨oc⟩
  have hc' : oc = some caps := hc
  subst hc'
  have heq : DefaultProfile goarch probe ⟨some ⟨some caps⟩⟩ =
      DefaultProfile goarch probe (mkSpec caps.bounding) := rfl
  rw [heq, DefaultProfile_mkSpec]
  exact ⟨_, rfl, rfl⟩

/-- Witness for C9 amended: a well-formed empty-bounding-set specification
yields a policy with the deny default action. -/
theorem no_fatal_path_witness :
    ∃ s, DefaultProfile "amd64" probeFalse (mkSpec []) = some s ∧
      s.defaultAction = .actErrno :=
  no_fatal_path "amd64" probeFalse (mkSpec []) _ _ rfl rfl

/-- C10: for every input the returned policy's default action is the errno
(deny) action, and the only errno-action rule the policy can contain is the
ENOSYS clone3 rule, present exactly when CAP_SYS_ADMIN is absent from the
bounding set; every other rule allows. -/
theorem single_deny_rule (goarch : String) (probe : KernelOracle)
    (bounding : List String) :
    ∃ s, DefaultProfile goarch probe (mkSpec bounding) = some s ∧
      s.defaultAction = .actErrno ∧
      s.syscalls.filter (fun r => decide (r.action = .actErrno)) =
        (if "CAP_SYS_ADMIN" ∈ bounding then []
         else [{ names := ["clone3"], action := .actErrno,
                 errnoRet := some enosys, args := [] }]) := by
  refine ⟨_, DefaultProfile_mkSpec goarch probe bounding, rfl, ?_⟩
  have hcap : (bounding.flatMap capRuleList).filter
      (fun r => decide (r.action = .actErrno)) = [] :=
    filter_flatMap_nil (by decide) bounding
  have harch : (archSyscalls goarch).filter
      (fun r => decide (r.action = .actErrno)) = [] :=
    filter_arch_nil (by decide) goarch
  simp only [profileSyscalls, List.filter_append, hcap, harch]
  by_cases hmem : "CAP_SYS_ADMIN" ∈ bounding
  · have ha : bounding.any (· == "CAP_SYS_ADMIN") = true := by
      simp only [List.any_eq_true, beq_iff_eq]
      exact ⟨_, hmem, rfl⟩
    simp only [ha, if_true, if_pos hmem, List.filter_nil, List.append_nil]
    rcases gateRules_cases probe with he | he <;> rw [he] <;> decide
  · have ha : bounding.any (· == "CAP_SYS_ADMIN") = false := by
      simp only [List.any_eq_false, beq_iff_eq]
      exact fun x hx hxe => hmem (hxe ▸ hx)
    have htail : List.filter (fun r => decide (r.action = .actErrno))
        [cloneRule (cloneIndex goarch), clone3Rule] = [clone3Rule] := rfl
    simp only [ha, Bool.false_eq_true, if_false, if_neg hmem, htail]
    rcases gateRules_cases probe with he | he <;> rw [he] <;> decide

/-- Witness for C10 at concrete inputs: with CAP_SYS_ADMIN the policy has
no errno rule; without it, exactly the ENOSYS clone3 rule. -/
theorem single_deny_rule_witness :
    (∃ s, DefaultProfile "amd64" probeFalse (mkSpec ["CAP_SYS_ADMIN"]) = some s ∧
       s.defaultAction = .actErrno ∧
       s.syscalls.filter (fun r => decide (r.action = .actErrno)) = []) ∧
    (∃ s, DefaultProfile "amd64" probeFalse (mkSpec []) = some s ∧
       s.defaultAction = .actErrno ∧
       s.syscalls.filter (fun r => decide (r.action = .actErrno)) =
         [{ names := ["clone3"], action := .actErrno,
            errnoRet := some enosys, args := [] }]) := by
  constructor
  · obtain ⟨s, hs, hd, hf⟩ := single_deny_rule "amd64" probeFalse ["CAP_SYS_ADMIN"]
    rw [if_pos (by decide)] at hf
    exact ⟨s, hs, hd, hf⟩
  · obtain ⟨s, hs, hd, hf⟩ := single_deny_rule "amd64" probeFalse []
    rw [if_neg (by decide)] at hf
    exact ⟨s, hs, hd, hf⟩

end Claims

end Seccomp
